import Mathlib

/-!
Shallow embedding of `scripts/makecrates.py`.

The script reads the per-device YAML file names of one input directory,
groups them by 7-character family prefix, asks the operator to confirm, and
then renders and writes four text files (Cargo.toml, README.md, src/lib.rs,
build.rs) per family.

Modelling conventions:
* Python strings are sequences of Unicode code points, so every string
  operation of the script is modelled on `String.data : List Char`
  (`s[:7]`, `os.path.splitext`, `str.lower`, `str.upper`, comparison).
  The identifiers handled by the script are ASCII, and `str.lower`/`str.upper`
  agree with the ASCII case maps used here on ASCII input.
* `glob.glob(dir/*.yaml)` is modelled by filtering a directory listing
  (the list of file basenames, in OS order) for names that end in `.yaml`
  and do not start with a dot (glob hides dotfiles).
* `sorted` on a list of strings is modelled by `List.insertionSort` on the
  code-point order: both produce the unique ascending reordering.
* The Python dict `devices` (family -> device list) is an insertion-ordered
  association list, as Python dicts preserve insertion order.
* `input()` is modelled as `Option String`: `some line` is a line entered by
  the operator (the script discards the returned line), `none` is an
  interrupt/end-of-input at the prompt, which kills the script.
* Dictionary lookups that can raise `KeyError` return `Option`/`Except`.
* File writes are accumulated in order as (path, content) pairs; the process
  exit status is 0 for a normal run and nonzero when an exception escapes.
-/

namespace Makecrates

/-- Boolean lexicographic comparison of code-point sequences, the comparison
Python uses on strings.  `pyLtChars xs ys` is true iff `xs` is strictly
smaller than `ys`. -/
def pyLtChars : List Char → List Char → Bool
  | [], [] => false
  | [], _ :: _ => true
  | _ :: _, [] => false
  | a :: as, b :: bs => if a < b then true else if b < a then false else pyLtChars as bs

/-- Boolean `≤` on strings via `pyLtChars`; the `Decidable` construction in
`pyDecLE` shows it agrees with the `≤` of the `LinearOrder String` instance. -/
def pyLeB (a b : String) : Bool := !(pyLtChars b.data a.data)

/-- Decidability of `≤` on strings that the kernel can evaluate
(the default instance works on byte iterators and does not reduce). -/
def pyDecLE : DecidableRel (· ≤ · : String → String → Prop) := fun a b =>
  decidable_of_iff (pyLeB a b = true) (by
    show pyLeB a b = true ↔ a ≤ b
    have hchars : ∀ (xs ys : List Char), pyLtChars xs ys = true ↔ List.lt xs ys := by
      intro xs
      induction xs with
      | nil =>
        intro ys
        cases ys with
        | nil => simp [pyLtChars]; intro h; cases h
        | cons c cs => simp [pyLtChars]; exact List.lt.nil c cs
      | cons c cs ih =>
        intro ys
        cases ys with
        | nil =>
          simp [pyLtChars]; intro h; cases h
        | cons e es =>
          simp only [pyLtChars]
          by_cases hce : c < e
          · simp [hce]; exact List.lt.head cs es hce
          · by_cases hec : e < c
            · simp [hce, hec]
              intro h
              cases h with
              | head _ _ h => exact hce h
              | tail h1 h2 _ => exact h2 hec
            · simp [hce, hec, ih es]
              constructor
              · intro h; exact List.lt.tail hce hec h
              · intro h
                cases h with
                | head _ _ h => exact absurd h hce
                | tail _ _ h => exact h
    rw [show (a ≤ b) ↔ (a.toList ≤ b.toList) from String.le_iff_toList_le, ← not_lt,
      show (b.toList < a.toList) ↔ List.lt b.toList a.toList from
        (List.lt_iff_lex_lt b.toList a.toList).symm,
      ← hchars b.toList a.toList]
    simp [pyLeB])

/-- Python's `sorted` on a list of strings: the ascending reordering.
`sorted` is a stable mergesort and `insertionSort` a stable insertion sort,
and on a list of strings both return the unique sorted permutation. -/
def pySort (xs : List String) : List String := @List.insertionSort String (· ≤ ·) pyDecLE xs

/-- ASCII lowercase map on one code point (`str.lower` on the ASCII data
this script handles). -/
def pyCharLower (c : Char) : Char :=
  if c.toNat ≥ 65 ∧ c.toNat ≤ 90 then Char.ofNat (c.toNat + 32) else c

/-- ASCII uppercase map on one code point (`str.upper` on the ASCII data
this script handles). -/
def pyCharUpper (c : Char) : Char :=
  if c.toNat ≥ 97 ∧ c.toNat ≤ 122 then Char.ofNat (c.toNat - 32) else c

/-- Python `s.lower()`. -/
def pyLower (s : String) : String := ⟨s.data.map pyCharLower⟩

/-- Python `s.upper()`. -/
def pyUpper (s : String) : String := ⟨s.data.map pyCharUpper⟩

/-- Python `s[:n]`. -/
def pyTake (s : String) (n : Nat) : String := ⟨s.data.take n⟩

/-- Stem of `os.path.splitext(name)[0]` for a glob match of `*.yaml`:
such a name ends in the 5-character extension `.yaml`, which `splitext`
removes. -/
def yamlStem (s : String) : String := ⟨s.data.take (s.data.length - 5)⟩

/-- Filename filter of `glob.glob(os.path.join(dir, "*.yaml"))`: the name
must end with `.yaml`, and glob does not match hidden files (leading dot). -/
def globYamlMatch (s : String) : Bool :=
  ".yaml".data.isSuffixOf s.data && !(".".data.isPrefixOf s.data)

/-- Result of the glob over a directory listing (file basenames in OS order). -/
def glob_yaml (listing : List String) : List String := listing.filter globYamlMatch

/-- Python `str(list_of_str)`: bracketed, comma separated, single quotes. -/
def pyStrList (xs : List String) : String :=
  "[" ++ String.intercalate ", " (xs.map (fun s => "\x27" ++ s ++ "\x27")) ++ "]"

/-- Value of one device entry of `stm32_part_table.yaml`: reference-manual
title and URL, vendor page URL, and the member part numbers. -/
structure DeviceInfo where
  rm : String
  rm_url : String
  url : String
  members : List String
deriving DecidableEq

/-- Loaded `stm32_part_table.yaml`: family -> device -> `DeviceInfo`,
an insertion-ordered mapping like every Python dict. -/
abbrev RefTable := List (String × List (String × DeviceInfo))

/-- Version constant `VERSION` of the script. -/
def VERSION : String := "0.9.0"

/-- Version constant `SVD2RUST_VERSION` of the script. -/
def SVD2RUST_VERSION : String := "0.16.1"

/-- Fixed table `CRATE_DOC_FEATURES` of the script. -/
def CRATE_DOC_FEATURES : List (String × List String) :=
  [("stm32f0", ["rt", "stm32f0x0", "stm32f0x1", "stm32f0x2", "stm32f0x8"]),
   ("stm32f1", ["rt", "stm32f100", "stm32f101", "stm32f102", "stm32f103", "stm32f107"]),
   ("stm32f2", ["rt", "stm32f215", "stm32f217"]),
   ("stm32f3", ["rt", "stm32f303", "stm32f373", "stm32f3x8"]),
   ("stm32f4", ["rt", "stm32f401", "stm32f407", "stm32f413", "stm32f469"]),
   ("stm32f7", ["rt", "stm32f7x3", "stm32f7x9"]),
   ("stm32h7", ["rt", "stm32h743", "stm32h743v", "stm32h747cm7"]),
   ("stm32l0", ["rt", "stm32l0x1", "stm32l0x2", "stm32l0x3"]),
   ("stm32l1", ["rt", "stm32l100", "stm32l151", "stm32l162"]),
   ("stm32l4", ["rt", "stm32l4x1", "stm32l4x5"]),
   ("stm32g0", ["rt", "stm32g07x", "stm32g030", "stm32g031", "stm32g041", "stm32g081"]),
   ("stm32g4", ["rt", "stm32g431", "stm32g441", "stm32g474", "stm32g484"])]

/-- Template `CARGO_TOML_TPL`, with its placeholders as arguments. -/
def CARGO_TOML_TPL_fmt (crate version family docs_features features : String) : String :=
  "[package]\nedition = \"2018\"\nname = \"" ++ crate ++ "\"\nversion = \"" ++ version ++
  "\"\nauthors = [\"Adam Greig <adam@adamgreig.com>\", \"stm32-rs Contributors\"]\ndescription = \"Device support crates for " ++
  family ++
  " devices\"\nrepository = \"https://github.com/stm32-rs/stm32-rs\"\nreadme = \"README.md\"\nkeywords = [\"stm32\", \"svd2rust\", \"no_std\", \"embedded\"]\ncategories = [\"embedded\", \"no-std\"]\nlicense = \"MIT/Apache-2.0\"\n\n[dependencies]\nbare-metal = \"0.2.4\"\nvcell = \"0.1.0\"\ncortex-m = \">=0.5.8,<0.7\"\n\n[dependencies.cortex-m-rt]\noptional = true\nversion = \"0.6.10\"\n\n[package.metadata.docs.rs]\nfeatures = " ++
  docs_features ++
  "\n\n[features]\ndefault = []\nrt = [\"cortex-m-rt/device\"]\n" ++ features ++ "\n"

/-- Template `SRC_LIB_RS_TPL`, with its placeholders as arguments. -/
def SRC_LIB_RS_TPL_fmt (family svd2rust_version crate mods : String) : String :=
  "//! Peripheral access API for " ++ family ++
  " microcontrollers\n//! (generated using [svd2rust](https://github.com/rust-embedded/svd2rust)\n//! " ++
  svd2rust_version ++
  ")\n//!\n//! You can find an overview of the API here:\n//! [svd2rust/#peripheral-api](https://docs.rs/svd2rust/" ++
  svd2rust_version ++
  "/svd2rust/#peripheral-api)\n//!\n//! For more details see the README here:\n//! [stm32-rs](https://github.com/stm32-rs/stm32-rs)\n//!\n//! This crate supports all " ++
  family ++ " devices; for the complete list please\n//! see:\n//! [" ++ crate ++
  "](https://github.com/stm32-rs/stm32-rs/tree/master/" ++ crate ++
  ")\n//!\n//! Due to doc build limitations, not all devices may be shown on docs.rs;\n//! a representative few have been selected instead. For a complete list of\n//! available registers and fields see: [stm32-rs Device Coverage](https://stm32.agg.io/rs)\n\n#![allow(non_camel_case_types)]\n#![no_std]\n\nmod generic;\npub use self::generic::*;\n\n" ++
  mods ++ "\n"

/-- Template `README_TPL`, with its placeholders as arguments. -/
def README_TPL_fmt (crate family version device svd2rust_version devices : String) : String :=
  "# " ++ crate ++ "\nThis crate provides an autogenerated API for access to " ++ family ++
  " peripherals.\nThe API is generated using [svd2rust] with patched svd files containing\nextensive type-safe support. For more information please see the [main repo].\n\nRefer to the [documentation] for full details.\n\n[svd2rust]: https://github.com/japaric/svd2rust\n[main repo]: https://github.com/stm32-rs/stm32-rs\n[documentation]: https://docs.rs/" ++
  crate ++ "/latest/" ++ crate ++
  "/\n\n## Usage\nEach device supported by this crate is behind a feature gate so that you only\ncompile the device(s) you want. To use, in your Cargo.toml:\n\n```toml\n[dependencies." ++
  crate ++ "]\nversion = \"" ++ version ++ "\"\n" ++
  ("features = [\"" ++ device ++ "\", \"rt\"]") ++
  "\n```\n\nThe `rt` feature is optional and brings in support for `cortex-m-rt`.\n\nIn your code:\n\n```rust\n" ++
  ("use " ++ crate ++ "::" ++ device ++ ";") ++
  "\n\nlet mut peripherals = " ++ device ++
  "::Peripherals::take().unwrap();\nlet gpioa = &peripherals.GPIOA;\ngpioa.odr.modify(|_, w| w.odr0().set_bit());\n```\n\nFor full details on the autogenerated API, please see:\nhttps://docs.rs/svd2rust/" ++
  svd2rust_version ++
  "/svd2rust/#peripheral-api\n\n## Supported Devices\n\n| Module | Devices | Links |\n|:------:|:-------:|:-----:|\n" ++
  devices ++ "\n"

/-- Template `BUILD_TPL`, with its placeholder as argument.  Literal braces
of the Rust code are escaped as \x7b and \x7d. -/
def BUILD_TPL_fmt (device_clauses : String) : String :=
  "use std::env;\nuse std::fs;\nuse std::path::PathBuf;\nfn main() \x7b\n    if env::var_os(\"CARGO_FEATURE_RT\").is_some() \x7b\n        let out = &PathBuf::from(env::var_os(\"OUT_DIR\").unwrap());\n        println!(\"cargo:rustc-link-search=\x7b\x7d\", out.display());\n        let device_file = " ++
  device_clauses ++
  ";\n        fs::copy(device_file, out.join(\"device.x\")).unwrap();\n        println!(\"cargo:rerun-if-changed=\x7b\x7d\", device_file);\n    \x7d\n    println!(\"cargo:rerun-if-changed=build.rs\");\n\x7d\n"

/-- Table row built by `make_device_rows` for one `(device, dt)` item:
`"| {device} | {members} | {links} |"` with
`links = "[{rm}]({rm_url}), [st.com]({url})"`. -/
def deviceRow (device : String) (dt : DeviceInfo) : String :=
  "| " ++ device ++ " | " ++ String.intercalate ", " dt.members ++ " | [" ++ dt.rm ++
  "](" ++ dt.rm_url ++ "), [st.com](" ++ dt.url ++ ") |"

/-- Function `make_device_rows(table, family)`.  `table[family]` raises
`KeyError` (modelled as `none`) when the family is missing; the rows are one
per item of the sub-mapping, joined sorted. -/
def make_device_rows (table : RefTable) (family : String) : Option String :=
  match List.lookup family table with
  | none => none
  | some fam =>
      some (String.intercalate "\n" (pySort (fam.map (fun p => deviceRow p.1 p.2))))

/-- Function `make_features(devices)`. -/
def make_features (devices : List String) : String :=
  String.intercalate "\n" ((pySort devices).map (fun d => d ++ " = []"))

/-- Function `make_mods(devices)`. -/
def make_mods (devices : List String) : String :=
  String.intercalate "\n"
    ((pySort devices).map (fun d => "#[cfg(feature = \"" ++ d ++ "\")]\npub mod " ++ d ++ ";\n"))

/-- One stripped clause of `make_device_clauses` for device `d`. -/
def deviceClause (d : String) : String :=
  "if env::var_os(\"CARGO_FEATURE_" ++ pyUpper d ++
  "\").is_some() \x7b\n            \"src/" ++ d ++ "/device.x\"\n        \x7d"

/-- Function `make_device_clauses(devices)`. -/
def make_device_clauses (devices : List String) : String :=
  String.intercalate " else " ((pySort devices).map deviceClause) ++
  " else \x7b panic!(\"No device features selected\"); \x7d"

/-- One step of the collection loop of `main`: append `device` to the entry
of `family`, creating the entry at the end on first sight (Python dict
insertion order). -/
def addDevice : List (String × List String) → String → String → List (String × List String)
  | [], fam, dev => [(fam, [dev])]
  | (f, ds) :: rest, fam, dev =>
    if f = fam then (f, ds ++ [dev]) :: rest
    else (f, ds) :: addDevice rest fam dev

/-- Collection loop of `main`: `family = yamlfile[:7]`,
`device = os.path.splitext(yamlfile)[0].lower()`. -/
def collect (yamlfiles : List String) : List (String × List String) :=
  yamlfiles.foldl (fun acc n => addDevice acc (pyTake n 7) (pyLower (yamlStem n))) []

/-- Per-family body of the output loop of `main`: renders the four texts and
returns the writes in program order, or the uncaught exception.  The fallible
steps happen in the script's evaluation order: `CRATE_DOC_FEATURES[crate]`
(while building `cargo_toml`), then `devices[family][0]`, then
`make_device_rows` (both while building `readme`). -/
def render_family (table : RefTable) (family : String) (devs : List String) :
    Except String (List (String × String)) :=
  let devices := pySort devs
  let crate := pyLower family
  let features := make_features devices
  let clauses := make_device_clauses devices
  let mods := make_mods devices
  let ufamily := pyUpper family
  match List.lookup crate CRATE_DOC_FEATURES with
  | none => .error ("KeyError: " ++ crate)
  | some docs =>
    match devices with
    | [] => .error "IndexError: list index out of range"
    | d0 :: _ =>
      match make_device_rows table family with
      | none => .error ("KeyError: " ++ family)
      | some rows =>
        .ok [(crate ++ "/Cargo.toml",
                CARGO_TOML_TPL_fmt crate VERSION ufamily (pyStrList docs) features),
             (crate ++ "/README.md",
                README_TPL_fmt crate ufamily VERSION d0 SVD2RUST_VERSION rows),
             (crate ++ "/src/lib.rs",
                SRC_LIB_RS_TPL_fmt ufamily SVD2RUST_VERSION crate mods),
             (crate ++ "/build.rs", BUILD_TPL_fmt clauses)]

/-- Output loop of `main` over the collected families: files written so far
(in write order) and the uncaught exception, if any, that aborted the loop. -/
def processFamilies (table : RefTable) :
    List (String × List String) → List (String × String) × Option String
  | [] => ([], none)
  | (family, devs) :: rest =>
    match render_family table family devs with
    | .error e => ([], some e)
    | .ok ws => (ws ++ (processFamilies table rest).1, (processFamilies table rest).2)

/-- Observable outcome of one invocation of the script: the directory list
shown at the confirmation prompt, the files written (path, content, in write
order), and the process exit status. -/
structure RunOutcome where
  dirs : String
  writes : List (String × String)
  exitCode : Nat
deriving DecidableEq

/-- Function `main`, invoked on a directory whose listing is `listing`, with
the part table `table` already loaded, and `response` the operator's action
at the prompt (`some line`: a line was entered and discarded; `none`:
interrupt, killing the process with status 130 before any write).  An
uncaught `KeyError` exits with status 1. -/
def run (listing : List String) (table : RefTable) (response : Option String) : RunOutcome :=
  let families := collect (glob_yaml listing)
  let dirs := String.intercalate ", " (families.map (fun p => pyLower p.1 ++ "/"))
  match response with
  | none => ⟨dirs, [], 130⟩
  | some _ =>
    let r := processFamilies table families
    ⟨dirs, r.1, match r.2 with | none => 0 | some _ => 1⟩

/-- Content a path holds after a sequence of writes (each write truncates:
mode "w"): the last write to that path, if any. -/
def lastWrite (writes : List (String × String)) (p : String) : Option String :=
  ((writes.filter (fun w => w.1 == p)).getLast?).map Prod.snd

/-- Text of the readme template before the features line of the usage
example (same chunking as `README_TPL_fmt`). -/
def readmeUsagePre (crate family version : String) : String :=
  "# " ++ crate ++ "\nThis crate provides an autogenerated API for access to " ++ family ++
  " peripherals.\nThe API is generated using [svd2rust] with patched svd files containing\nextensive type-safe support. For more information please see the [main repo].\n\nRefer to the [documentation] for full details.\n\n[svd2rust]: https://github.com/japaric/svd2rust\n[main repo]: https://github.com/stm32-rs/stm32-rs\n[documentation]: https://docs.rs/" ++
  crate ++ "/latest/" ++ crate ++
  "/\n\n## Usage\nEach device supported by this crate is behind a feature gate so that you only\ncompile the device(s) you want. To use, in your Cargo.toml:\n\n```toml\n[dependencies." ++
  crate ++ "]\nversion = \"" ++ version ++ "\"\n"

/-- Text of the readme template between the features line and the `use`
line of the usage example. -/
def readmeUsageMid : String :=
  "\n```\n\nThe `rt` feature is optional and brings in support for `cortex-m-rt`.\n\nIn your code:\n\n```rust\n"

/-- Text of the readme template after the `use` line of the usage example. -/
def readmeUsageTail (device svd2rust_version devices : String) : String :=
  "\n\nlet mut peripherals = " ++ device ++
  "::Peripherals::take().unwrap();\nlet gpioa = &peripherals.GPIOA;\ngpioa.odr.modify(|_, w| w.odr0().set_bit());\n```\n\nFor full details on the autogenerated API, please see:\nhttps://docs.rs/svd2rust/" ++
  svd2rust_version ++
  "/svd2rust/#peripheral-api\n\n## Supported Devices\n\n| Module | Devices | Links |\n|:------:|:-------:|:-----:|\n" ++
  devices ++ "\n"

/-- Concrete part table holding only family stm32f0 with device stm32f0x0,
used to instantiate the theorems below. -/
def tblF0 : RefTable :=
  [("stm32f0", [("stm32f0x0", ⟨"RM0360", "rm0360-url", "st-f0-url", ["STM32F030"]⟩)])]

/-- Concrete part table holding only family stm32f1 with device stm32f103. -/
def tblF1 : RefTable :=
  [("stm32f1", [("stm32f103", ⟨"RM0008", "rm0008-url", "st-f103-url", ["STM32F103"]⟩)])]

/-- Concrete part table for family stm32f1 with devices stm32f103 and
stm32f999 (the latter never appears among the input files). -/
def tblF1x : RefTable :=
  [("stm32f1", [("stm32f103", ⟨"RM0008", "rm0008-url", "st-f103-url", ["STM32F103"]⟩),
                ("stm32f999", ⟨"RM9999", "rm9999-url", "st-f999-url", ["STM32F999"]⟩)])]

/-- Concrete part table holding the two distinct case-variant families
STM32F1 and stm32f1. -/
def tblMixed : RefTable :=
  [("STM32F1", [("stm32f103", ⟨"RM0008", "rm0008-url", "st-f103-url", ["STM32F103"]⟩)]),
   ("stm32f1", [("stm32f107", ⟨"RM0008", "rm0008-url", "st-f107-url", ["STM32F107"]⟩)])]

theorem pySort_sorted (xs : List String) : List.Sorted (· ≤ ·) (pySort xs) :=
  @List.sorted_insertionSort String (· ≤ ·) pyDecLE inferInstance inferInstance xs

theorem pySort_perm (xs : List String) : (pySort xs).Perm xs :=
  @List.perm_insertionSort String (· ≤ ·) pyDecLE xs

theorem pySort_head_min (devs : List String) (d0 : String) (rest : List String)
    (h : pySort devs = d0 :: rest) : d0 ∈ devs ∧ ∀ x ∈ devs, d0 ≤ x := by
  have hperm := pySort_perm devs
  rw [h] at hperm
  constructor
  · exact hperm.mem_iff.1 (List.mem_cons_self d0 rest)
  · intro x hx
    have hx' : x ∈ d0 :: rest := hperm.mem_iff.2 hx
    have hs := pySort_sorted devs
    rw [h] at hs
    rcases List.mem_cons.1 hx' with rfl | hxr
    · exact le_refl x
    · exact List.rel_of_sorted_cons hs x hxr

theorem pySort_ne_nil (devs : List String) (h : devs ≠ []) : pySort devs ≠ [] := by
  intro h0
  have hperm := pySort_perm devs
  rw [h0] at hperm
  exact h hperm.symm.eq_nil

theorem render_family_error_doc (table : RefTable) (family : String) (devs : List String)
    (h : List.lookup (pyLower family) CRATE_DOC_FEATURES = none) :
    render_family table family devs = .error ("KeyError: " ++ pyLower family) := by
  simp [render_family, h]

theorem render_family_ok_elim (table : RefTable) (family : String) (devs : List String)
    (ws : List (String × String)) (h : render_family table family devs = .ok ws) :
    ∃ d0 rest rows c1 c3 c4,
      pySort devs = d0 :: rest ∧
      make_device_rows table family = some rows ∧
      ws = [(pyLower family ++ "/Cargo.toml", c1),
            (pyLower family ++ "/README.md",
              README_TPL_fmt (pyLower family) (pyUpper family) VERSION d0 SVD2RUST_VERSION rows),
            (pyLower family ++ "/src/lib.rs", c3),
            (pyLower family ++ "/build.rs", c4)] := by
  cases hdoc : List.lookup (pyLower family) CRATE_DOC_FEATURES with
  | none => simp [render_family, hdoc] at h
  | some docs =>
    cases hdev : pySort devs with
    | nil => simp [render_family, hdoc, hdev] at h
    | cons d0 rest =>
      cases hrows : make_device_rows table family with
      | none => simp [render_family, hdoc, hdev, hrows] at h
      | some rows =>
        simp only [render_family, hdoc, hdev, hrows, Except.ok.injEq] at h
        exact ⟨d0, rest, rows, _, _, _, rfl, rfl, h.symm⟩

theorem render_family_ok_paths (table : RefTable) (family : String) (devs : List String)
    (ws : List (String × String)) (h : render_family table family devs = .ok ws) :
    ws.map Prod.fst =
      [pyLower family ++ "/Cargo.toml", pyLower family ++ "/README.md",
       pyLower family ++ "/src/lib.rs", pyLower family ++ "/build.rs"] := by
  obtain ⟨d0, rest, rows, c1, c3, c4, _, _, hws⟩ := render_family_ok_elim table family devs ws h
  rw [hws]
  rfl

theorem README_TPL_fmt_parts (crate family version device svd2rust_version devices : String) :
    README_TPL_fmt crate family version device svd2rust_version devices =
      readmeUsagePre crate family version ++
      ("features = [\"" ++ device ++ "\", \"rt\"]") ++
      readmeUsageMid ++
      ("use " ++ crate ++ "::" ++ device ++ ";") ++
      readmeUsageTail device svd2rust_version devices := by
  simp only [README_TPL_fmt, readmeUsagePre, readmeUsageMid, readmeUsageTail,
    String.append_assoc]

theorem lastWrite_append_right (a b : List (String × String)) (p : String)
    (h : p ∈ b.map Prod.fst) : lastWrite (a ++ b) p = lastWrite b p := by
  unfold lastWrite
  rw [List.filter_append, List.getLast?_append]
  obtain ⟨w, hwb, hwp⟩ := List.mem_map.1 h
  have hmem : w ∈ b.filter (fun w => w.1 == p) :=
    List.mem_filter.2 ⟨hwb, by simp [hwp]⟩
  have hne : b.filter (fun w => w.1 == p) ≠ [] := List.ne_nil_of_mem hmem
  obtain ⟨v, hv⟩ := Option.isSome_iff_exists.1 (List.getLast?_isSome.2 hne)
  rw [hv]
  rfl

/-- C2 (amended): before any output is written the script prints the family
directory list and blocks on the prompt; it then proceeds identically for any
completed input line, whatever its content (the returned line is discarded),
and only an interrupt/end-of-input at the prompt aborts the run, with no file
written and a nonzero exit status. -/
theorem claim2_confirmation_gate (listing : List String) (table : RefTable) :
    (∀ s : String, run listing table (some s) = run listing table (some "")) ∧
    (run listing table none).writes = [] ∧ (run listing table none).exitCode = 130 :=
  ⟨fun _ => rfl, rfl, rfl⟩

/-- C2 counterexample: the operator answers the prompt with the explicit
non-confirmation line "no", yet the run does not abort: it writes the four
files of family stm32f0 and exits with status 0. -/
theorem claim2_cex :
    (run ["stm32f0x0.yaml"] tblF0 (some "no")).writes ≠ [] ∧
    (run ["stm32f0x0.yaml"] tblF0 (some "no")).exitCode = 0 := by
  exact ⟨by decide, by decide⟩

theorem claim2_confirmation_gate_witness :
    run ["stm32f0x0.yaml"] tblF0 (some "anything") = run ["stm32f0x0.yaml"] tblF0 (some "") ∧
    (run ["stm32f0x0.yaml"] tblF0 none).writes = [] :=
  ⟨(claim2_confirmation_gate ["stm32f0x0.yaml"] tblF0).1 "anything",
   (claim2_confirmation_gate ["stm32f0x0.yaml"] tblF0).2.1⟩

/-- C3 (amended): the feature flags emitted in the manifest are exactly the
sorted list, with multiplicity, of the device identifiers of the family;
when those identifiers are pairwise distinct (a no-duplicate device list),
the emitted list is duplicate-free and equals the sorted de-duplicated set. -/
theorem claim3_features_sorted (devs : List String) (h : devs.Nodup) :
    ∃ l : List String,
      make_features devs = String.intercalate "\n" (l.map (fun d => d ++ " = []")) ∧
      l.Perm devs ∧ l.Sorted (· ≤ ·) ∧ l.Nodup :=
  ⟨pySort devs, rfl, pySort_perm devs, pySort_sorted devs, ((pySort_perm devs).nodup_iff).2 h⟩

/-- C3 counterexample: the input files stm32f1ab.yaml and stm32f1AB.yaml
fall into the same family stm32f1 and both map to the device identifier
stm32f1ab, which is not de-duplicated: the features section lists it twice. -/
theorem claim3_cex :
    collect (glob_yaml ["stm32f1ab.yaml", "stm32f1AB.yaml"]) =
      [("stm32f1", ["stm32f1ab", "stm32f1ab"])] ∧
    make_features ["stm32f1ab", "stm32f1ab"] = "stm32f1ab = []\nstm32f1ab = []" := by
  exact ⟨by decide, by decide⟩

theorem claim3_features_sorted_witness :
    (["stm32f107", "stm32f103"] : List String).Nodup ∧
    ∃ l : List String,
      make_features ["stm32f107", "stm32f103"] =
        String.intercalate "\n" (l.map (fun d => d ++ " = []")) ∧
      l.Perm ["stm32f107", "stm32f103"] ∧ l.Sorted (· ≤ ·) ∧ l.Nodup :=
  ⟨by decide, claim3_features_sorted ["stm32f107", "stm32f103"] (by decide)⟩

/-- C4 (amended): readme row generation fails with a lookup error exactly
when the family itself is absent from the reference table; a device of the
family that is absent from the family's sub-mapping raises no error, because
the rows are generated from the sub-mapping itself (such a device is
silently left without a row). -/
theorem claim4_rows_error_iff (table : RefTable) (family : String) :
    make_device_rows table family = none ↔ List.lookup family table = none := by
  unfold make_device_rows
  cases h : List.lookup family table <;> simp

/-- C4 counterexample: family stm32f1 is processed with devices stm32f103
and stm32f107, but the reference table's sub-mapping for stm32f1 only knows
stm32f103; row generation does not fail: it returns the single stm32f103
row (and the whole run exits with status 0). -/
theorem claim4_cex :
    collect (glob_yaml ["stm32f103.yaml", "stm32f107.yaml"]) =
      [("stm32f1", ["stm32f103", "stm32f107"])] ∧
    make_device_rows tblF1 "stm32f1" =
      some "| stm32f103 | STM32F103 | [RM0008](rm0008-url), [st.com](st-f103-url) |" ∧
    (run ["stm32f103.yaml", "stm32f107.yaml"] tblF1 (some "")).exitCode = 0 := by
  exact ⟨by decide, by decide, by decide⟩

theorem claim4_rows_error_iff_witness :
    (make_device_rows tblF1 "stm32f9" = none ↔ List.lookup "stm32f9" tblF1 = none) ∧
    make_device_rows tblF1 "stm32f9" = none :=
  ⟨claim4_rows_error_iff tblF1 "stm32f9", by decide⟩

/-- C6 (confirmed): for every non-empty family device list, the build
script's conditional chain is the " else "-join of one clause per device of
the list, ordered ascending by device identifier, each clause testing that
device's CARGO_FEATURE flag and selecting that device's src/{d}/device.x
path, followed by exactly one final fallback clause that panics when no
device feature is active. -/
theorem claim6_build_clauses (devs : List String) (h : devs ≠ []) :
    ∃ l : List String, l.Perm devs ∧ l.Sorted (· ≤ ·) ∧ l ≠ [] ∧
      make_device_clauses devs =
        String.intercalate " else "
          (l.map (fun d =>
            "if env::var_os(\"CARGO_FEATURE_" ++ pyUpper d ++
            "\").is_some() \x7b\n            \"src/" ++ d ++ "/device.x\"\n        \x7d")) ++
        " else \x7b panic!(\"No device features selected\"); \x7d" :=
  ⟨pySort devs, pySort_perm devs, pySort_sorted devs, pySort_ne_nil devs h, rfl⟩

theorem claim6_build_clauses_witness :
    (["stm32f107", "stm32f103"] : List String) ≠ [] ∧
    ∃ l : List String, l.Perm ["stm32f107", "stm32f103"] ∧ l.Sorted (· ≤ ·) ∧ l ≠ [] ∧
      make_device_clauses ["stm32f107", "stm32f103"] =
        String.intercalate " else "
          (l.map (fun d =>
            "if env::var_os(\"CARGO_FEATURE_" ++ pyUpper d ++
            "\").is_some() \x7b\n            \"src/" ++ d ++ "/device.x\"\n        \x7d")) ++
        " else \x7b panic!(\"No device features selected\"); \x7d" :=
  ⟨by decide, claim6_build_clauses ["stm32f107", "stm32f103"] (by decide)⟩

/-- C7 (confirmed): the family renderer (which produces all four artifact
texts from the family name, the device list — sorted internally — and the
reference table, with the fixed version constants baked in) is
deterministic: identical inputs yield identical, byte-for-byte equal,
rendered texts. -/
theorem claim7_renderers_deterministic (t1 t2 : RefTable) (f1 f2 : String)
    (d1 d2 : List String) (ht : t1 = t2) (hf : f1 = f2) (hd : d1 = d2) :
    render_family t1 f1 d1 = render_family t2 f2 d2 := by
  subst ht
  subst hf
  subst hd
  rfl

theorem claim7_renderers_deterministic_witness :
    render_family tblF1 "stm32f1" ["stm32f103"] = render_family tblF1 "stm32f1" ["stm32f103"] :=
  claim7_renderers_deterministic tblF1 tblF1 "stm32f1" "stm32f1" ["stm32f103"] ["stm32f103"]
    rfl rfl rfl

/-- C1 (amended): when a family's lowercased prefix is absent from
CRATE_DOC_FEATURES, the whole run aborts with a lookup error, and nothing is
written for the offending family or for any family after it; the files of
the families processed before it, however, have already been written. -/
theorem claim1_doc_lookup_abort (table : RefTable) (pre : List (String × List String))
    (f : String) (ds : List String) (post : List (String × List String))
    (hpre : (processFamilies table pre).2 = none)
    (hf : List.lookup (pyLower f) CRATE_DOC_FEATURES = none) :
    (processFamilies table (pre ++ (f, ds) :: post)).2.isSome = true ∧
    (processFamilies table (pre ++ (f, ds) :: post)).1 = (processFamilies table pre).1 := by
  induction pre with
  | nil =>
    simp [processFamilies, render_family_error_doc table f ds hf]
  | cons hd tl ih =>
    obtain ⟨g, gs⟩ := hd
    cases hrg : render_family table g gs with
    | error e =>
      rw [show processFamilies table ((g, gs) :: tl) = ([], some e) from by
        simp [processFamilies, hrg]] at hpre
      simp at hpre
    | ok ws =>
      have hpre' : (processFamilies table tl).2 = none := by
        simpa [processFamilies, hrg] using hpre
      have hih := ih hpre'
      constructor
      · simpa [processFamilies, hrg] using hih.1
      · simp [processFamilies, hrg, hih.2]

/-- C1 counterexample: the input holds families stm32f0 (known to
CRATE_DOC_FEATURES) and zzz9999 (unknown).  The run aborts with a nonzero
status, but the four files of family stm32f0 were already written before
the lookup error on zzz9999 — the abort is not prior to all output. -/
theorem claim1_cex :
    (run ["stm32f0x0.yaml", "zzz9999x.yaml"] tblF0 (some "")).exitCode = 1 ∧
    (run ["stm32f0x0.yaml", "zzz9999x.yaml"] tblF0 (some "")).writes.map Prod.fst =
      ["stm32f0/Cargo.toml", "stm32f0/README.md", "stm32f0/src/lib.rs", "stm32f0/build.rs"] := by
  exact ⟨by decide, by decide⟩

theorem claim1_doc_lookup_abort_witness :
    (processFamilies tblF0 [("stm32f0", ["stm32f0x0"])]).2 = none ∧
    List.lookup (pyLower "zzz9999") CRATE_DOC_FEATURES = none ∧
    ((processFamilies tblF0
        ([("stm32f0", ["stm32f0x0"])] ++ ("zzz9999", ["zzz9999x"]) :: [])).2.isSome = true ∧
     (processFamilies tblF0
        ([("stm32f0", ["stm32f0x0"])] ++ ("zzz9999", ["zzz9999x"]) :: [])).1 =
       (processFamilies tblF0 [("stm32f0", ["stm32f0x0"])]).1) :=
  ⟨by decide, by decide,
   claim1_doc_lookup_abort tblF0 [("stm32f0", ["stm32f0x0"])] "zzz9999" ["zzz9999x"] []
     (by decide) (by decide)⟩

/-- C5 (amended): the device coverage table of the generated readme has
exactly one row per device of the reference table's sub-mapping for the
family (not per device collected from the input filenames); each row is
built from that device's members list, reference-manual title and URL and
vendor URL, and the rows are joined sorted lexicographically by row text. -/
theorem claim5_rows_content (table : RefTable) (family : String)
    (fam : List (String × DeviceInfo)) (h : List.lookup family table = some fam) :
    ∃ rows : List String,
      make_device_rows table family = some (String.intercalate "\n" rows) ∧
      rows.Perm (fam.map (fun p =>
        "| " ++ p.1 ++ " | " ++ String.intercalate ", " p.2.members ++ " | [" ++ p.2.rm ++
        "](" ++ p.2.rm_url ++ "), [st.com](" ++ p.2.url ++ ") |")) ∧
      rows.Sorted (· ≤ ·) := by
  refine ⟨pySort (fam.map (fun p => deviceRow p.1 p.2)), ?_, ?_, pySort_sorted _⟩
  · simp [make_device_rows, h]
  · exact pySort_perm _

/-- C5 counterexample: family stm32f1 is collected from the input with the
single device stm32f103, but the reference table's sub-mapping for stm32f1
also holds stm32f999, so the generated table has two rows — not exactly one
row per device collected from the input filenames. -/
theorem claim5_cex :
    collect (glob_yaml ["stm32f103.yaml"]) = [("stm32f1", ["stm32f103"])] ∧
    make_device_rows tblF1x "stm32f1" =
      some ("| stm32f103 | STM32F103 | [RM0008](rm0008-url), [st.com](st-f103-url) |\n| stm32f999 | STM32F999 | [RM9999](rm9999-url), [st.com](st-f999-url) |") := by
  exact ⟨by decide, by decide⟩

theorem claim5_rows_content_witness :
    List.lookup "stm32f1" tblF1x =
      some [("stm32f103", ⟨"RM0008", "rm0008-url", "st-f103-url", ["STM32F103"]⟩),
            ("stm32f999", ⟨"RM9999", "rm9999-url", "st-f999-url", ["STM32F999"]⟩)] ∧
    ∃ rows : List String,
      make_device_rows tblF1x "stm32f1" = some (String.intercalate "\n" rows) ∧
      rows.Perm (([("stm32f103", ⟨"RM0008", "rm0008-url", "st-f103-url", ["STM32F103"]⟩),
            ("stm32f999", ⟨"RM9999", "rm9999-url", "st-f999-url", ["STM32F999"]⟩)] :
              List (String × DeviceInfo)).map (fun p =>
        "| " ++ p.1 ++ " | " ++ String.intercalate ", " p.2.members ++ " | [" ++ p.2.rm ++
        "](" ++ p.2.rm_url ++ "), [st.com](" ++ p.2.url ++ ") |")) ∧
      rows.Sorted (· ≤ ·) :=
  ⟨by decide, claim5_rows_content tblF1x "stm32f1" _ (by decide)⟩

/-- C8 (confirmed): when no file of the input directory listing matches the
glob (also modelling a nonexistent directory as an empty listing), zero
families are computed, the confirmation prompt lists no directories, no
output file is written, and the process exits with status zero (the
operator completes the prompt normally). -/
theorem claim8_empty_input (listing : List String) (table : RefTable) (s : String)
    (h : ∀ f ∈ listing, globYamlMatch f = false) :
    collect (glob_yaml listing) = [] ∧ run listing table (some s) = ⟨"", [], 0⟩ := by
  have hg : glob_yaml listing = [] := by
    apply List.filter_eq_nil_iff.mpr
    intro a ha
    simp [h a ha]
  constructor
  · simp [collect, hg]
  · simp [run, hg, collect, processFamilies]
    rfl

theorem claim8_empty_input_witness :
    (∀ f ∈ (["README.md", ".hidden.yaml"] : List String), globYamlMatch f = false) ∧
    collect (glob_yaml ["README.md", ".hidden.yaml"]) = [] ∧
    run ["README.md", ".hidden.yaml"] tblF1 (some "") = ⟨"", [], 0⟩ :=
  ⟨by decide, claim8_empty_input ["README.md", ".hidden.yaml"] tblF1 "" (by decide)⟩

/-- C9 (confirmed): whenever a family renders successfully, the device
substituted into the readme usage example (the Cargo.toml features line and
the `use` line of the code snippet) is a member of the family's device list
that is less than or equal to every device of the list — the
lexicographically smallest device identifier. -/
theorem claim9_readme_min_device (table : RefTable) (family : String) (devs : List String)
    (ws : List (String × String)) (h : render_family table family devs = .ok ws) :
    ∃ d rows pre post,
      d ∈ devs ∧ (∀ x ∈ devs, d ≤ x) ∧
      ws = pre ++ (pyLower family ++ "/README.md",
        README_TPL_fmt (pyLower family) (pyUpper family) VERSION d SVD2RUST_VERSION rows)
          :: post ∧
      (∃ p q, README_TPL_fmt (pyLower family) (pyUpper family) VERSION d SVD2RUST_VERSION rows =
        p ++ ("features = [\"" ++ d ++ "\", \"rt\"]") ++ q) ∧
      (∃ p q, README_TPL_fmt (pyLower family) (pyUpper family) VERSION d SVD2RUST_VERSION rows =
        p ++ ("use " ++ pyLower family ++ "::" ++ d ++ ";") ++ q) := by
  obtain ⟨d0, rest, rows, c1, c3, c4, hdev, hrows, hws⟩ :=
    render_family_ok_elim table family devs ws h
  obtain ⟨hmem, hmin⟩ := pySort_head_min devs d0 rest hdev
  refine ⟨d0, rows, [(pyLower family ++ "/Cargo.toml", c1)],
    [(pyLower family ++ "/src/lib.rs", c3), (pyLower family ++ "/build.rs", c4)],
    hmem, hmin, by rw [hws]; rfl, ?_, ?_⟩
  · refine ⟨readmeUsagePre (pyLower family) (pyUpper family) VERSION,
      readmeUsageMid ++ ("use " ++ pyLower family ++ "::" ++ d0 ++ ";") ++
        readmeUsageTail d0 SVD2RUST_VERSION rows, ?_⟩
    rw [README_TPL_fmt_parts]
    simp [String.append_assoc]
  · refine ⟨readmeUsagePre (pyLower family) (pyUpper family) VERSION ++
      ("features = [\"" ++ d0 ++ "\", \"rt\"]") ++ readmeUsageMid,
      readmeUsageTail d0 SVD2RUST_VERSION rows, ?_⟩
    rw [README_TPL_fmt_parts]

theorem claim9_readme_min_device_witness :
    ∃ ws, render_family tblF1 "stm32f1" ["stm32f107", "stm32f103"] = Except.ok ws ∧
      ∃ d rows pre post,
        d ∈ (["stm32f107", "stm32f103"] : List String) ∧
        (∀ x ∈ (["stm32f107", "stm32f103"] : List String), d ≤ x) ∧
        ws = pre ++ (pyLower "stm32f1" ++ "/README.md",
          README_TPL_fmt (pyLower "stm32f1") (pyUpper "stm32f1") VERSION d SVD2RUST_VERSION rows)
            :: post ∧
        (∃ p q,
          README_TPL_fmt (pyLower "stm32f1") (pyUpper "stm32f1") VERSION d SVD2RUST_VERSION rows =
            p ++ ("features = [\"" ++ d ++ "\", \"rt\"]") ++ q) ∧
        (∃ p q,
          README_TPL_fmt (pyLower "stm32f1") (pyUpper "stm32f1") VERSION d SVD2RUST_VERSION rows =
            p ++ ("use " ++ pyLower "stm32f1" ++ "::" ++ d ++ ";") ++ q) :=
  ⟨_, rfl, claim9_readme_min_device tblF1 "stm32f1" ["stm32f107", "stm32f103"] _ rfl⟩

/-- C10 (confirmed): two input filenames whose 7-character prefixes differ
only in letter case are collected into two distinct families; both families
render their artifacts under the same lowercased directory (identical file
paths), the run writes the first family's four files and then the second
family's four files over them, so the content each path finally holds is
the later-processed family's. -/
theorem claim10_case_sensitive_grouping
    (f1 f2 : String) (table : RefTable) (s : String) (ws1 ws2 : List (String × String))
    (hg1 : globYamlMatch f1 = true) (hg2 : globYamlMatch f2 = true)
    (hne : pyTake f1 7 ≠ pyTake f2 7)
    (hlow : pyLower (pyTake f1 7) = pyLower (pyTake f2 7))
    (hr1 : render_family table (pyTake f1 7) [pyLower (yamlStem f1)] = .ok ws1)
    (hr2 : render_family table (pyTake f2 7) [pyLower (yamlStem f2)] = .ok ws2) :
    collect (glob_yaml [f1, f2]) =
      [(pyTake f1 7, [pyLower (yamlStem f1)]), (pyTake f2 7, [pyLower (yamlStem f2)])] ∧
    (run [f1, f2] table (some s)).writes = ws1 ++ ws2 ∧
    (run [f1, f2] table (some s)).exitCode = 0 ∧
    ws1.map Prod.fst = ws2.map Prod.fst ∧
    (∀ p ∈ ws2.map Prod.fst,
      lastWrite ((run [f1, f2] table (some s)).writes) p = lastWrite ws2 p) := by
  have hglob : glob_yaml [f1, f2] = [f1, f2] := by simp [glob_yaml, hg1, hg2]
  have hcol : collect (glob_yaml [f1, f2]) =
      [(pyTake f1 7, [pyLower (yamlStem f1)]), (pyTake f2 7, [pyLower (yamlStem f2)])] := by
    simp [collect, hglob, addDevice, hne]
  have hproc : processFamilies table
      [(pyTake f1 7, [pyLower (yamlStem f1)]), (pyTake f2 7, [pyLower (yamlStem f2)])] =
      (ws1 ++ ws2, none) := by
    simp [processFamilies, hr1, hr2]
  have hwr : (run [f1, f2] table (some s)).writes = ws1 ++ ws2 := by
    simp [run, hcol, hproc]
  refine ⟨hcol, hwr, ?_, ?_, ?_⟩
  · simp [run, hcol, hproc]
  · rw [render_family_ok_paths _ _ _ _ hr1, render_family_ok_paths _ _ _ _ hr2, hlow]
  · intro p hp
    rw [hwr]
    exact lastWrite_append_right ws1 ws2 p hp

theorem claim10_case_sensitive_grouping_witness :
    pyTake "STM32F103.yaml" 7 ≠ pyTake "stm32f107.yaml" 7 ∧
    pyLower (pyTake "STM32F103.yaml" 7) = pyLower (pyTake "stm32f107.yaml" 7) ∧
    ∃ ws1 ws2,
      render_family tblMixed (pyTake "STM32F103.yaml" 7)
        [pyLower (yamlStem "STM32F103.yaml")] = Except.ok ws1 ∧
      render_family tblMixed (pyTake "stm32f107.yaml" 7)
        [pyLower (yamlStem "stm32f107.yaml")] = Except.ok ws2 ∧
      (collect (glob_yaml ["STM32F103.yaml", "stm32f107.yaml"]) =
        [(pyTake "STM32F103.yaml" 7, [pyLower (yamlStem "STM32F103.yaml")]),
         (pyTake "stm32f107.yaml" 7, [pyLower (yamlStem "stm32f107.yaml")])] ∧
      (run ["STM32F103.yaml", "stm32f107.yaml"] tblMixed (some "")).writes = ws1 ++ ws2 ∧
      (run ["STM32F103.yaml", "stm32f107.yaml"] tblMixed (some "")).exitCode = 0 ∧
      ws1.map Prod.fst = ws2.map Prod.fst ∧
      (∀ p ∈ ws2.map Prod.fst,
        lastWrite ((run ["STM32F103.yaml", "stm32f107.yaml"] tblMixed (some "")).writes) p =
          lastWrite ws2 p)) := by
  refine ⟨by decide, by decide, ?_⟩
  refine ⟨_, _, rfl, rfl, ?_⟩
  exact claim10_case_sensitive_grouping "STM32F103.yaml" "stm32f107.yaml" tblMixed "" _ _
    (by decide) (by decide) (by decide) (by decide) rfl rfl

end Makecrates
